import Mathlib

/-!
Shallow embedding of the launch-structure-verifier core pipeline
(fact bundle → chain-aware checks → severity-weighted score aggregation →
explanation → response cache), translated from the Rust sources under
`src/`.  Machine floats (`f64`) are modelled as exact rationals, `u8`/`u64`
values as `Nat` with explicit bounds checks where overflow matters, and
fallible code as `Option`.
-/

namespace LaunchVerifier

/-- Rust `f64::round` (ties away from zero) on a non-negative value,
modelled on `ℚ` as `⌊q + 1/2⌋`. -/
def ratRound (q : ℚ) : ℤ := ⌊q + 1/2⌋

/-- Rust saturating cast `as u8` applied to an already-rounded value:
negatives clamp to `0` (via `Int.toNat`) and values above `255` clamp
to `255`. -/
def u8cast (z : ℤ) : Nat := min z.toNat 255

/-- `(x.round() as u8)` for a non-negative `f64` expression `x`. -/
def roundToU8 (q : ℚ) : Nat := u8cast (ratRound q)

/-! ## Data model (`src/types.rs`) -/

/-- `TokenStandard` from `src/types.rs`. -/
inductive TokenStandard where
  | SplToken
  | SplToken2022
  | Erc20
  | Unknown
  deriving DecidableEq, Repr

/-- Rust `format!("{:?}", standard)` for `TokenStandard`. -/
def TokenStandard.debugStr : TokenStandard → String
  | .SplToken => "SplToken"
  | .SplToken2022 => "SplToken2022"
  | .Erc20 => "Erc20"
  | .Unknown => "Unknown"

/-- `AgeBand` from `src/types.rs`. -/
inductive AgeBand where
  | LessThan24h
  | Day1To7
  | GreaterThan7d
  | Unknown
  deriving DecidableEq, Repr

/-- Rust `format!("{:?}", age_band)` for `AgeBand`. -/
def AgeBand.debugStr : AgeBand → String
  | .LessThan24h => "LessThan24h"
  | .Day1To7 => "Day1To7"
  | .GreaterThan7d => "GreaterThan7d"
  | .Unknown => "Unknown"

/-- `CheckStatus` from `src/types.rs`. -/
inductive CheckStatus where
  | Pass
  | Fail
  | Unknown
  deriving DecidableEq, Repr, BEq

/-- `Severity` from `src/types.rs`. -/
inductive Severity where
  | Critical
  | High
  | Medium
  | Low
  deriving DecidableEq, Repr, BEq

/-- `Grade` from `src/types.rs`. -/
inductive Grade where
  | Strong
  | Mixed
  | Fragile
  | Compromised
  deriving DecidableEq, Repr

/-- `Metadata` from `src/types.rs` (`decimals` is a `u8`). -/
structure Metadata where
  name : Option String
  symbol : Option String
  decimals : Option Nat
  standard : TokenStandard
  deriving DecidableEq

/-- `SupplyInfo` from `src/types.rs` (`total_supply` is an `f64`). -/
structure SupplyInfo where
  total_supply_raw : Option String
  total_supply : Option ℚ
  deriving DecidableEq

/-- `AuthorityInfo` from `src/types.rs`. -/
structure AuthorityInfo where
  mint_authority : Option String
  freeze_authority : Option String
  owner : Option String
  mint_mutable : Option Bool
  deriving DecidableEq

/-- `HolderBalance` from `src/types.rs`. -/
structure HolderBalance where
  address : String
  balance_raw : String
  balance : Option ℚ
  pct_of_supply : Option ℚ
  deriving DecidableEq

/-- `HolderInfo` from `src/types.rs` (percentages are `f64`). -/
structure HolderInfo where
  top1_pct : Option ℚ
  top5_pct : Option ℚ
  top_holders : List HolderBalance
  deriving DecidableEq

/-- `CreationInfo` from `src/types.rs` (`age_seconds` is a `u64`). -/
structure CreationInfo where
  created_at : Option String
  age_seconds : Option Nat
  age_band : AgeBand
  deriving DecidableEq

/-- `TokenFacts` from `src/types.rs`. -/
structure TokenFacts where
  metadata : Option Metadata
  supply : Option SupplyInfo
  authorities : Option AuthorityInfo
  holders : Option HolderInfo
  creation : Option CreationInfo
  deriving DecidableEq

/-- Untyped `serde_json::Value` payloads carried in `value`/`evidence`
fields; numbers are modelled as rationals. -/
inductive Json where
  | null : Json
  | bool : Bool → Json
  | num : ℚ → Json
  | str : String → Json
  | arr : List Json → Json
  | obj : List (String × Json) → Json

/-- `json!` of an `Option<String>`: `null` or a JSON string. -/
def Json.ofOptStr : Option String → Json
  | none => Json.null
  | some s => Json.str s

/-- `json!` of an `Option<u8>`-style number: `null` or a JSON number. -/
def Json.ofOptNat : Option Nat → Json
  | none => Json.null
  | some n => Json.num n

/-- `json!` of an `Option<f64>` number: `null` or a JSON number. -/
def Json.ofOptRat : Option ℚ → Json
  | none => Json.null
  | some q => Json.num q

/-- `CheckResult` from `src/types.rs` (`weight` and `score_component`
are `u8` values, modelled as unbounded `Nat` with `u8`-validity stated
where it matters). -/
structure CheckResult where
  id : String
  label : String
  category : String
  status : CheckStatus
  severity : Severity
  value : Json
  evidence : Json
  weight : Nat
  score_component : Option Nat

/-! ## Checks (`src/checks/*.rs`) -/

/-- `check_mint_authority_disabled` from `src/checks/mint_authority.rs`
(the `unknown_result` helper is inlined in the `None` branch). -/
def check_mint_authority_disabled (facts : TokenFacts) : CheckResult :=
  match facts.authorities with
  | none =>
      { id := "mint_authority_disabled"
        label := "Mint authority disabled"
        category := "supply_control"
        status := CheckStatus.Unknown
        severity := Severity.Critical
        value := Json.null
        evidence := Json.obj [("source", Json.str "provider"),
          ("error", Json.str "authority data unavailable")]
        weight := 25
        score_component := none }
  | some authorities =>
      let is_disabled := authorities.mint_authority.isNone
      { id := "mint_authority_disabled"
        label := "Mint authority disabled"
        category := "supply_control"
        status := if is_disabled then CheckStatus.Pass else CheckStatus.Fail
        severity := Severity.Critical
        value := Json.bool is_disabled
        evidence := Json.obj [("source", Json.str "provider"),
          ("mint_authority", Json.ofOptStr authorities.mint_authority)]
        weight := 25
        score_component := if is_disabled then some 100 else some 0 }

/-- `check_freeze_authority_disabled` from `src/checks/freeze_authority.rs`. -/
def check_freeze_authority_disabled (facts : TokenFacts) : CheckResult :=
  match facts.authorities with
  | none =>
      { id := "freeze_authority_disabled"
        label := "Freeze authority disabled"
        category := "supply_control"
        status := CheckStatus.Unknown
        severity := Severity.High
        value := Json.null
        evidence := Json.obj [("source", Json.str "provider"),
          ("error", Json.str "authority data unavailable")]
        weight := 20
        score_component := none }
  | some authorities =>
      let is_disabled := authorities.freeze_authority.isNone
      { id := "freeze_authority_disabled"
        label := "Freeze authority disabled"
        category := "supply_control"
        status := if is_disabled then CheckStatus.Pass else CheckStatus.Fail
        severity := Severity.High
        value := Json.bool is_disabled
        evidence := Json.obj [("source", Json.str "provider"),
          ("freeze_authority", Json.ofOptStr authorities.freeze_authority)]
        weight := 20
        score_component := if is_disabled then some 100 else some 0 }

/-- `check_ownership_renounced` from `src/checks/ownership.rs`: the
missing-authorities branch returns `Unknown` with severity `High`,
while the populated branch always uses severity `Critical`. -/
def check_ownership_renounced (facts : TokenFacts) : CheckResult :=
  match facts.authorities with
  | none =>
      { id := "ownership_renounced"
        label := "Ownership renounced"
        category := "Authority"
        status := CheckStatus.Unknown
        severity := Severity.High
        score_component := none
        value := Json.null
        weight := 20
        evidence := Json.obj [("reason", Json.str "No authority data available")] }
  | some authorities =>
      let owner := authorities.owner
      let statusScore : CheckStatus × Option Nat :=
        if owner.isNone then (CheckStatus.Pass, some 100)
        else (CheckStatus.Fail, some 0)
      { id := "ownership_renounced"
        label := "Ownership renounced"
        category := "Authority"
        status := statusScore.1
        severity := Severity.Critical
        score_component := statusScore.2
        value := Json.ofOptStr owner
        weight := 20
        evidence := Json.obj [("owner", Json.ofOptStr owner),
          ("is_renounced", Json.bool owner.isNone)] }

/-- `lerp` from `src/checks/holder_concentration.rs`: clamp below `x0`
to `y0`, above `x1` to `y1`, else linear interpolation. -/
def lerp (x x0 x1 y0 y1 : ℚ) : ℚ :=
  if x ≤ x0 then y0
  else if x1 ≤ x then y1
  else y0 + (x - x0) * (y1 - y0) / (x1 - x0)

/-- `score_top1` from `src/checks/holder_concentration.rs`. -/
def score_top1 (pct : ℚ) : ℚ :=
  if pct ≤ 10 then 100
  else if pct ≤ 20 then lerp pct 10 20 100 60
  else if pct ≤ 40 then lerp pct 20 40 60 25
  else if pct ≤ 70 then lerp pct 40 70 25 0
  else 0

/-- `score_top5` from `src/checks/holder_concentration.rs`. -/
def score_top5 (pct : ℚ) : ℚ :=
  if pct ≤ 30 then 100
  else if pct ≤ 50 then lerp pct 30 50 100 60
  else if pct ≤ 70 then lerp pct 50 70 60 25
  else if pct ≤ 90 then lerp pct 70 90 25 0
  else 0

/-- The `unknown_result` helper of `src/checks/holder_concentration.rs`. -/
def holderUnknownResult : CheckResult :=
  { id := "holder_concentration"
    label := "Holder concentration"
    category := "distribution"
    status := CheckStatus.Unknown
    severity := Severity.Medium
    value := Json.null
    evidence := Json.obj [("source", Json.str "provider"),
      ("error", Json.str "holder data unavailable")]
    weight := 20
    score_component := none }

/-- `check_holder_concentration` from `src/checks/holder_concentration.rs`. -/
def check_holder_concentration (facts : TokenFacts) : CheckResult :=
  match facts.holders with
  | none => holderUnknownResult
  | some holders =>
    match holders.top1_pct, holders.top5_pct with
    | some top1_pct, some top5_pct =>
        let score1 := score_top1 top1_pct
        let score5 := score_top5 top5_pct
        let combined := roundToU8 ((score1 + score5) / 2)
        let status := if 50 ≤ combined then CheckStatus.Pass else CheckStatus.Fail
        let severity :=
          if 80 ≤ combined then Severity.Low
          else if 50 ≤ combined then Severity.Medium
          else Severity.High
        { id := "holder_concentration"
          label := "Holder concentration"
          category := "distribution"
          status := status
          severity := severity
          value := Json.obj [("top1_pct", Json.num top1_pct),
            ("top5_pct", Json.num top5_pct),
            ("sub_scores", Json.obj [("top1", Json.num score1), ("top5", Json.num score5)])]
          evidence := Json.obj [("source", Json.str "provider"),
            ("top1_pct", Json.num top1_pct),
            ("top5_pct", Json.num top5_pct),
            ("method", Json.str "supply-weighted holder distribution")]
          weight := 20
          score_component := some combined }
    | _, _ => holderUnknownResult

/-- The `unknown_result` helper of `src/checks/token_age.rs`. -/
def tokenAgeUnknownResult : CheckResult :=
  { id := "token_age"
    label := "Token age"
    category := "temporal"
    status := CheckStatus.Unknown
    severity := Severity.Low
    value := Json.null
    evidence := Json.obj [("source", Json.str "provider"),
      ("error", Json.str "creation time unavailable")]
    weight := 10
    score_component := none }

/-- `check_token_age` from `src/checks/token_age.rs`. -/
def check_token_age (facts : TokenFacts) : CheckResult :=
  match facts.creation with
  | none => tokenAgeUnknownResult
  | some creation =>
    match creation.age_band with
    | AgeBand.Unknown => tokenAgeUnknownResult
    | band =>
        let scoreInterp : Nat × String :=
          match band with
          | AgeBand.GreaterThan7d => (100, "stabilizing")
          | AgeBand.Day1To7 => (70, "early")
          | _ => (40, "extremely_fragile")
        { id := "token_age"
          label := "Token age"
          category := "temporal"
          status := CheckStatus.Pass
          severity := Severity.Low
          value := Json.obj [("age_band", Json.str band.debugStr),
            ("age_seconds", Json.ofOptNat creation.age_seconds),
            ("interpretation", Json.str scoreInterp.2)]
          evidence := Json.obj [("source", Json.str "provider"),
            ("created_at", Json.ofOptStr creation.created_at),
            ("age_seconds", Json.ofOptNat creation.age_seconds)]
          weight := 10
          score_component := some scoreInterp.1 }

/-- `check_solana_standard` from `src/checks/standard_sanity.rs`. -/
def check_solana_standard : TokenStandard → Bool × Severity
  | TokenStandard.SplToken => (true, Severity.Medium)
  | TokenStandard.SplToken2022 => (true, Severity.Medium)
  | TokenStandard.Unknown => (false, Severity.High)
  | _ => (false, Severity.Medium)

/-- `check_evm_standard` from `src/checks/standard_sanity.rs`. -/
def check_evm_standard (standard : TokenStandard) (decimals : Option Nat) :
    Bool × Severity :=
  match standard with
  | TokenStandard.Erc20 => if decimals.isSome then (true, Severity.Medium)
      else (false, Severity.Medium)
  | TokenStandard.Unknown => (false, Severity.High)
  | _ => (false, Severity.Medium)

/-- The `unknown_result` helper of `src/checks/standard_sanity.rs`. -/
def standardUnknownResult : CheckResult :=
  { id := "standard_sanity"
    label := "Standard sanity"
    category := "interface"
    status := CheckStatus.Unknown
    severity := Severity.Medium
    value := Json.null
    evidence := Json.obj [("source", Json.str "provider"),
      ("error", Json.str "metadata unavailable")]
    weight := 10
    score_component := none }

/-- `check_standard_sanity` from `src/checks/standard_sanity.rs`: note
the chain match recognizes only `"solana"`, `"base"` and `"evm"`; every
other chain string (including `"ethereum"`) falls through to
`(false, Medium)`. -/
def check_standard_sanity (facts : TokenFacts) (chain : String) : CheckResult :=
  match facts.metadata with
  | none => standardUnknownResult
  | some metadata =>
      let stdSev : Bool × Severity :=
        if chain = "solana" then check_solana_standard metadata.standard
        else if chain = "base" ∨ chain = "evm" then
          check_evm_standard metadata.standard metadata.decimals
        else (false, Severity.Medium)
      { id := "standard_sanity"
        label := "Standard sanity"
        category := "interface"
        status := if stdSev.1 then CheckStatus.Pass else CheckStatus.Fail
        severity := stdSev.2
        value := Json.obj [("standard", Json.str metadata.standard.debugStr),
          ("chain", Json.str chain)]
        evidence := Json.obj [("source", Json.str "provider"),
          ("standard", Json.str metadata.standard.debugStr),
          ("decimals", Json.ofOptNat metadata.decimals)]
        weight := 10
        score_component := if stdSev.1 then some 100 else some 0 }

/-! ## Score aggregator (`src/scoring/aggregator.rs`) -/

/-- `ScoreComponent` from `src/scoring/aggregator.rs` (`weight` and
`component_score` are `u8`, `weighted_points` an `f64`). -/
structure ScoreComponent where
  id : String
  weight : Nat
  component_score : Option Nat
  weighted_points : Option ℚ
  deriving DecidableEq

/-- `ScoreResult` from `src/scoring/aggregator.rs`. -/
structure ScoreResult where
  model : String
  fairness_score : Option Nat
  grade : Grade
  components : List ScoreComponent
  weights_total : Nat
  notes : List String
  deriving DecidableEq

/-- `grade_from_score` from `src/scoring/aggregator.rs`. -/
def grade_from_score (score : Nat) : Grade :=
  if 80 ≤ score then Grade.Strong
  else if 60 ≤ score then Grade.Mixed
  else if 40 ≤ score then Grade.Fragile
  else Grade.Compromised

/-- `matches!(check.severity, Severity::Critical) && matches!(check.status,
CheckStatus::Fail)` from the aggregator loop. -/
def isCriticalFailure (check : CheckResult) : Bool :=
  (match check.severity with
   | Severity.Critical => true
   | _ => false) &&
  (match check.status with
   | CheckStatus.Fail => true
   | _ => false)

/-- Mutable loop state of `aggregate_score`. -/
structure AggState where
  weights_total : Nat
  points_total : ℚ
  components : List ScoreComponent
  has_critical_failure : Bool

/-- One iteration of the `for check in checks` loop of `aggregate_score`.
The Rust accumulator `weights_total` is a `u8`; `weights_total +=
check.weight` faults (panics under Rust's checked arithmetic) when the sum
leaves `u8` range, modelled as `none`. -/
def aggStep (st : AggState) (check : CheckResult) : Option AggState :=
  match check.score_component with
  | some score =>
      let wt := st.weights_total + check.weight
      if wt ≤ 255 then
        let weighted_points : ℚ := (check.weight : ℚ) * ((score : ℚ) / 100)
        some { weights_total := wt
               points_total := st.points_total + weighted_points
               components := st.components ++
                 [{ id := check.id, weight := check.weight,
                    component_score := some score,
                    weighted_points := some weighted_points }]
               has_critical_failure :=
                 st.has_critical_failure || isCriticalFailure check }
      else none
  | none =>
      some { st with
             components := st.components ++
               [{ id := check.id, weight := check.weight,
                  component_score := none, weighted_points := none }]
             has_critical_failure :=
               st.has_critical_failure || isCriticalFailure check }

/-- The `for` loop of `aggregate_score`. -/
def aggLoop : AggState → List CheckResult → Option AggState
  | st, [] => some st
  | st, check :: rest =>
    match aggStep st check with
    | some st' => aggLoop st' rest
    | none => none

/-- `aggregate_score` from `src/scoring/aggregator.rs`.  Returns `none`
exactly when the `u8` accumulation of `weights_total` faults. -/
def aggregate_score (checks : List CheckResult) : Option ScoreResult :=
  (aggLoop { weights_total := 0, points_total := 0, components := [],
             has_critical_failure := false } checks).map fun st =>
    let fairness_score : Option Nat :=
      if st.weights_total = 0 then none
      else some (roundToU8 ((st.points_total / (st.weights_total : ℚ)) * 100))
    let grade :=
      if st.has_critical_failure then Grade.Compromised
      else
        match fairness_score with
        | some score => grade_from_score score
        | none => Grade.Compromised
    { model := "weighted_sum_v1"
      fairness_score := fairness_score
      grade := grade
      components := st.components
      weights_total := st.weights_total
      notes := ["Composite score summarizes structure; individual checks are the source of truth."] }

/-! ## Analysis pipeline (`src/api/analyze.rs`, `src/api/types.rs`) -/

/-- `ProviderError` from `src/providers/mod.rs`. -/
inductive ProviderError where
  | Timeout
  | InvalidResponse
  | NetworkError (detail : String)
  | NotFound
  deriving DecidableEq

/-- Rust `format!("{:?}", e)` for `ProviderError`. -/
def ProviderError.debugStr : ProviderError → String
  | .Timeout => "Timeout"
  | .InvalidResponse => "InvalidResponse"
  | .NetworkError detail => "NetworkError(\"" ++ detail ++ "\")"
  | .NotFound => "NotFound"

/-- One analysis invocation's view of the `TokenProvider` trait: the
outcome of each of the five fact fetches for the requested address. -/
structure ProviderOutcomes where
  metadata : Except ProviderError Metadata
  supply : Except ProviderError SupplyInfo
  authorities : Except ProviderError AuthorityInfo
  holders : Except ProviderError HolderInfo
  creation : Except ProviderError CreationInfo

/-- `AnalyzeOptions` from `src/api/types.rs` (`max_holders` is a `usize`). -/
structure AnalyzeOptions where
  include_holders : Bool
  max_holders : Nat
  force_refresh : Bool
  deriving DecidableEq

/-- `AnalyzeRequest` from `src/api/types.rs`. -/
structure AnalyzeRequest where
  chain : String
  address : String
  options : AnalyzeOptions
  deriving DecidableEq

/-- `AnalysisStatus` from `src/api/types.rs`. -/
inductive AnalysisStatus where
  | Ok
  | Partial
  | Error
  deriving DecidableEq, Repr

/-- `TokenMetadata` from `src/api/types.rs`. -/
structure TokenMetadata where
  name : Option String
  symbol : Option String
  decimals : Option Nat
  total_supply : Option ℚ
  program_standard : String
  created_at : Option String
  age_seconds : Option Nat
  age_band : String
  deriving DecidableEq

/-- `InterpretationSection` from `src/api/types.rs`. -/
structure InterpretationSection where
  what_to_do : List String
  deriving DecidableEq

/-- `ExplainSection` from `src/api/types.rs`. -/
structure ExplainSection where
  summary : String
  method : List String
  interpretation : InterpretationSection
  deriving DecidableEq

/-- `AnalyzeResponse` from `src/api/types.rs`. -/
structure AnalyzeResponse where
  schema_version : String
  analysis_id : String
  requested_at : String
  chain : String
  address : String
  status : AnalysisStatus
  token : Option TokenMetadata
  checks : List CheckResult
  score : ScoreResult
  explain : ExplainSection
  errors : List String

/-- `gather_facts` from `src/api/analyze.rs`: each of the five provider
calls either populates its sub-record or appends a tagged error string;
the holder fetch is skipped when `include_holders` is `false`. -/
def gather_facts (provider : ProviderOutcomes) (options : AnalyzeOptions) :
    TokenFacts × List String :=
  let stepM : Option Metadata × List String :=
    match provider.metadata with
    | .ok v => (some v, [])
    | .error e => (none, ["Failed to fetch metadata: " ++ e.debugStr])
  let stepS : Option SupplyInfo × List String :=
    match provider.supply with
    | .ok v => (some v, [])
    | .error e => (none, ["Failed to fetch supply: " ++ e.debugStr])
  let stepA : Option AuthorityInfo × List String :=
    match provider.authorities with
    | .ok v => (some v, [])
    | .error e => (none, ["Failed to fetch authorities: " ++ e.debugStr])
  let stepH : Option HolderInfo × List String :=
    if options.include_holders then
      match provider.holders with
      | .ok v => (some v, [])
      | .error e => (none, ["Failed to fetch holders: " ++ e.debugStr])
    else (none, [])
  let stepC : Option CreationInfo × List String :=
    match provider.creation with
    | .ok v => (some v, [])
    | .error e => (none, ["Failed to fetch creation time: " ++ e.debugStr])
  ({ metadata := stepM.1, supply := stepS.1, authorities := stepA.1,
     holders := stepH.1, creation := stepC.1 },
   stepM.2 ++ stepS.2 ++ stepA.2 ++ stepH.2 ++ stepC.2)

/-- `run_checks` from `src/api/analyze.rs`. -/
def run_checks (facts : TokenFacts) (chain : String) : List CheckResult :=
  if chain = "solana" then
    [check_mint_authority_disabled facts,
     check_freeze_authority_disabled facts,
     check_holder_concentration facts,
     check_token_age facts,
     check_standard_sanity facts chain]
  else if chain = "base" ∨ chain = "evm" ∨ chain = "ethereum" then
    [check_ownership_renounced facts,
     check_holder_concentration facts,
     check_token_age facts,
     check_standard_sanity facts chain]
  else
    [check_holder_concentration facts,
     check_token_age facts]

/-- `build_token_metadata` from `src/api/analyze.rs`. -/
def build_token_metadata (facts : TokenFacts) : Option TokenMetadata :=
  facts.metadata.map fun metadata =>
    { name := metadata.name
      symbol := metadata.symbol
      decimals := metadata.decimals
      total_supply := facts.supply.bind (·.total_supply)
      program_standard := metadata.standard.debugStr
      created_at := facts.creation.bind (·.created_at)
      age_seconds := facts.creation.bind (·.age_seconds)
      age_band := (facts.creation.map (fun c => c.age_band.debugStr)).getD "Unknown" }

/-- `generate_explanation` from `src/api/analyze.rs`. -/
def generate_explanation (checks : List CheckResult) (score : ScoreResult) :
    ExplainSection :=
  let summary :=
    match score.grade with
    | Grade.Strong => "Structure looks sound. No major weaknesses detected."
    | Grade.Mixed => "Structure is mostly sound with some areas of concern."
    | Grade.Fragile => "Structure shows significant fragility. Proceed with caution."
    | Grade.Compromised => "Structure is fundamentally compromised. High risk."
  let method :=
    ["This tool evaluates structural fairness, not price prediction.",
     "Each check is verifiable on-chain and scored transparently."]
  let has_failures := checks.any fun c => c.status == CheckStatus.Fail
  let bulletsCritical := checks.foldl (fun acc check =>
    if isCriticalFailure check then
      if check.id = "mint_authority_disabled" then
        acc ++ ["Mint authority exists: supply is mutable and can be inflated."]
      else if check.id = "ownership_renounced" then
        acc ++ ["Ownership not renounced: contract parameters can still be changed."]
      else acc
    else acc) []
  let bulletsHigh := checks.foldl (fun acc check =>
    if check.severity == Severity.High && check.status == CheckStatus.Fail then
      if check.id = "freeze_authority_disabled" then
        acc ++ ["Freeze authority exists: token balances can be frozen."]
      else acc
    else acc) bulletsCritical
  let bulletsConc := checks.foldl (fun acc check =>
    if check.id = "holder_concentration" then
      match check.score_component with
      | some score_comp =>
          if score_comp < 50 then
            acc ++ ["High holder concentration increases structural fragility."]
          else acc
      | none => acc
    else acc) bulletsHigh
  let what_to_do :=
    if bulletsConc.isEmpty && !has_failures then
      ["All structural checks passed. Token appears fairly launched."]
    else if bulletsConc.isEmpty && has_failures then
      ["Some structural checks failed. Review details above."]
    else bulletsConc
  { summary := summary, method := method,
    interpretation := { what_to_do := what_to_do } }

/-- `analyze` from `src/api/analyze.rs`.  `analysis_id` and
`requested_at` come from impure clock-based generators and are passed in
as parameters; a fault of the aggregator propagates as `none`. -/
def analyze (request : AnalyzeRequest) (provider : ProviderOutcomes)
    (analysis_id requested_at : String) : Option AnalyzeResponse :=
  let gathered := gather_facts provider request.options
  let facts := gathered.1
  let errors := gathered.2
  let status :=
    if errors.isEmpty then AnalysisStatus.Ok
    else if facts.metadata.isSome || facts.authorities.isSome then
      AnalysisStatus.Partial
    else AnalysisStatus.Error
  let checks := run_checks facts request.chain
  (aggregate_score checks).map fun score =>
    { schema_version := "1.0.0"
      analysis_id := analysis_id
      requested_at := requested_at
      chain := request.chain
      address := request.address
      status := status
      token := build_token_metadata facts
      checks := checks
      score := score
      explain := generate_explanation checks score
      errors := errors }

/-! ## Response cache (`src/cache/simple_cache.rs`, `src/api/cached_analyze.rs`) -/

/-- `CacheEntry` from `src/cache/simple_cache.rs` (`cached_at` and
`ttl_seconds` are `u64`). -/
structure CacheEntry where
  response : AnalyzeResponse
  cached_at : Nat
  ttl_seconds : Nat

/-- `SimpleCache` from `src/cache/simple_cache.rs`: the `HashMap` is
modelled as an association list with at most one binding per key. -/
structure SimpleCache where
  entries : List (String × CacheEntry)

/-- `HashMap::get` on the modelled map. -/
def SimpleCache.findEntry (cache : SimpleCache) (key : String) :
    Option CacheEntry :=
  (cache.entries.find? fun p => p.1 == key).map (·.2)

/-- `SimpleCache::get` from `src/cache/simple_cache.rs`: on a live entry
(`now.saturating_sub(cached_at) < ttl_seconds`, where `Nat` subtraction
is saturating) return a clone of the stored response with `requested_at`
rewritten to mark cache provenance; otherwise `None`.  The impure
`current_timestamp()` is the `now` parameter. -/
def SimpleCache.get (cache : SimpleCache) (key : String) (now : Nat) :
    Option AnalyzeResponse :=
  match cache.findEntry key with
  | some entry =>
      let age := now - entry.cached_at
      if age < entry.ttl_seconds then
        some { entry.response with
               requested_at := "cached_" ++ toString entry.cached_at }
      else none
  | none => none

/-- `SimpleCache::set` from `src/cache/simple_cache.rs`:
`HashMap::insert` always overwrites the binding for `key`. -/
def SimpleCache.set (cache : SimpleCache) (key : String)
    (response : AnalyzeResponse) (now ttl_seconds : Nat) : SimpleCache :=
  { entries := (key, { response := response, cached_at := now,
                       ttl_seconds := ttl_seconds }) ::
      cache.entries.filter fun p => p.1 != key }

/-- `ttl_for_response` from `src/cache/simple_cache.rs`. -/
def ttl_for_response (response : AnalyzeResponse) : Nat :=
  match response.token with
  | some token =>
      if token.age_band = "LessThan24h" then 600
      else if token.age_band = "Day1To7" then 3600
      else if token.age_band = "GreaterThan7d" then 3600
      else if token.age_band = "Unknown" then 1800
      else 3600
  | none => 1800

/-- The cache key `format!("{}:{}:{}:{}", chain, address, include_holders,
max_holders)` of `analyze_with_cache`. -/
def cacheKey (request : AnalyzeRequest) : String :=
  request.chain ++ ":" ++ request.address ++ ":" ++
    toString request.options.include_holders ++ ":" ++
    toString request.options.max_holders

/-- `analyze_with_cache` from `src/api/cached_analyze.rs`: read the
cache unless `force_refresh`, else run the pipeline and store the fresh
response under the request key. -/
def analyze_with_cache (request : AnalyzeRequest)
    (provider : ProviderOutcomes) (cache : SimpleCache)
    (analysis_id requested_at : String) (now : Nat) :
    Option (AnalyzeResponse × SimpleCache) :=
  let key := cacheKey request
  match (if request.options.force_refresh then none
         else cache.get key now) with
  | some cached_response => some (cached_response, cache)
  | none =>
      (analyze request provider analysis_id requested_at).map fun response =>
        (response, cache.set key response now (ttl_for_response response))

/-! ## Spec-side formulas (stated from the spec's words, §4.3, for
comparison with the aggregator code) -/

/-- Spec §4.3 step 1: `weights_total` sums the `weight` of every check
with a present `score_component`. -/
def specWeightsTotal (checks : List CheckResult) : Nat :=
  (checks.map fun c =>
    match c.score_component with
    | some _ => c.weight
    | none => 0).sum

/-- Spec §4.3 step 1: `points_total` sums `weight × (score/100)` over
checks with a present `score_component`. -/
def specPointsTotal (checks : List CheckResult) : ℚ :=
  (checks.map fun c =>
    match c.score_component with
    | some s => (c.weight : ℚ) * ((s : ℚ) / 100)
    | none => 0).sum

/-- The `ScoreComponent` record the aggregator loop pushes for a check. -/
def mkComponent (c : CheckResult) : ScoreComponent :=
  match c.score_component with
  | some s =>
      { id := c.id, weight := c.weight, component_score := some s,
        weighted_points := some ((c.weight : ℚ) * ((s : ℚ) / 100)) }
  | none =>
      { id := c.id, weight := c.weight, component_score := none,
        weighted_points := none }

/-! ## Aggregator characterization -/

lemma specWeightsTotal_cons (c : CheckResult) (rest : List CheckResult) :
    specWeightsTotal (c :: rest) =
      (match c.score_component with | some _ => c.weight | none => 0) +
        specWeightsTotal rest := by
  simp [specWeightsTotal]

lemma specPointsTotal_cons (c : CheckResult) (rest : List CheckResult) :
    specPointsTotal (c :: rest) =
      (match c.score_component with
       | some s => (c.weight : ℚ) * ((s : ℚ) / 100)
       | none => 0) + specPointsTotal rest := by
  simp [specPointsTotal]

lemma aggLoop_cons (st : AggState) (c : CheckResult) (rest : List CheckResult) :
    aggLoop st (c :: rest) =
      match aggStep st c with
      | some st' => aggLoop st' rest
      | none => none := rfl

/-- The aggregator loop, closed form: starting from an in-range `u8`
accumulator it faults exactly when the total of scored weights leaves
`u8` range, and otherwise accumulates the spec's sums, the component
list and the critical-failure flag. -/
lemma aggLoop_eq (checks : List CheckResult) (st : AggState)
    (hst : st.weights_total ≤ 255) :
    aggLoop st checks =
      if st.weights_total + specWeightsTotal checks ≤ 255 then
        some { weights_total := st.weights_total + specWeightsTotal checks
               points_total := st.points_total + specPointsTotal checks
               components := st.components ++ checks.map mkComponent
               has_critical_failure :=
                 st.has_critical_failure || checks.any isCriticalFailure }
      else none := by
  induction checks generalizing st with
  | nil =>
      simp [aggLoop, specWeightsTotal, specPointsTotal, hst]
  | cons c rest ih =>
      cases hs : c.score_component with
      | some s =>
          rcases le_or_lt (st.weights_total + c.weight) 255 with h1 | h1
          · have hstep : aggStep st c =
                some { weights_total := st.weights_total + c.weight
                       points_total :=
                         st.points_total + (c.weight : ℚ) * ((s : ℚ) / 100)
                       components := st.components ++ [mkComponent c]
                       has_critical_failure :=
                         st.has_critical_failure || isCriticalFailure c } := by
              simp [aggStep, hs, h1, mkComponent]
            rw [aggLoop_cons]
            simp only [hstep]
            rw [ih { weights_total := st.weights_total + c.weight,
                     points_total :=
                       st.points_total + (c.weight : ℚ) * ((s : ℚ) / 100),
                     components := st.components ++ [mkComponent c],
                     has_critical_failure :=
                       st.has_critical_failure || isCriticalFailure c } h1]
            simp only [specWeightsTotal_cons, specPointsTotal_cons, hs]
            rw [show st.weights_total + c.weight + specWeightsTotal rest =
                  st.weights_total + (c.weight + specWeightsTotal rest) from by omega]
            split
            · simp [List.any_cons, Bool.or_assoc, List.append_assoc, add_assoc]
            · rfl
          · have hstep : aggStep st c = none := by
              simp only [aggStep, hs]
              rw [if_neg (by omega)]
            rw [aggLoop_cons]
            simp only [hstep]
            simp only [specWeightsTotal_cons, hs]
            rw [if_neg (by omega)]
      | none =>
          have hstep : aggStep st c =
              some { st with
                     components := st.components ++ [mkComponent c]
                     has_critical_failure :=
                       st.has_critical_failure || isCriticalFailure c } := by
            simp [aggStep, hs, mkComponent]
          rw [aggLoop_cons]
          simp only [hstep]
          rw [ih { weights_total := st.weights_total,
                   points_total := st.points_total,
                   components := st.components ++ [mkComponent c],
                   has_critical_failure :=
                     st.has_critical_failure || isCriticalFailure c } hst]
          simp only [specWeightsTotal_cons, specPointsTotal_cons, hs]
          simp only [Nat.zero_add, zero_add]
          split
          · simp [List.any_cons, Bool.or_assoc, List.append_assoc, add_assoc]
          · rfl

/-- The aggregator loop from its initial state. -/
lemma aggLoop_run (checks : List CheckResult) :
    aggLoop { weights_total := 0, points_total := 0, components := [],
              has_critical_failure := false } checks =
      if specWeightsTotal checks ≤ 255 then
        some { weights_total := specWeightsTotal checks
               points_total := specPointsTotal checks
               components := checks.map mkComponent
               has_critical_failure := checks.any isCriticalFailure }
      else none := by
  rw [aggLoop_eq _ _ (by decide)]
  norm_num

/-- `aggregate_score`, closed form. -/
lemma aggregate_score_eq (checks : List CheckResult) :
    aggregate_score checks =
      if specWeightsTotal checks ≤ 255 then
        some { model := "weighted_sum_v1"
               fairness_score :=
                 if specWeightsTotal checks = 0 then none
                 else some (roundToU8
                   ((specPointsTotal checks / (specWeightsTotal checks : ℚ)) * 100))
               grade :=
                 if checks.any isCriticalFailure then Grade.Compromised
                 else if specWeightsTotal checks = 0 then Grade.Compromised
                 else grade_from_score (roundToU8
                   ((specPointsTotal checks / (specWeightsTotal checks : ℚ)) * 100))
               components := checks.map mkComponent
               weights_total := specWeightsTotal checks
               notes := ["Composite score summarizes structure; individual checks are the source of truth."] }
      else none := by
  unfold aggregate_score
  rw [aggLoop_run]
  rcases le_or_lt (specWeightsTotal checks) 255 with h255 | h255
  · rw [if_pos h255, if_pos h255]
    simp only [Option.map_some', Option.some.injEq]
    by_cases h0 : specWeightsTotal checks = 0
    · simp [h0]
    · by_cases hcf : checks.any isCriticalFailure
      · simp [h0, hcf]
      · simp [h0, hcf]
  · rw [if_neg (by omega), if_neg (by omega)]
    rfl

lemma isCriticalFailure_eq_true (c : CheckResult) :
    isCriticalFailure c = true ↔
      c.severity = Severity.Critical ∧ c.status = CheckStatus.Fail := by
  unfold isCriticalFailure
  cases c.severity <;> cases c.status <;> simp

lemma any_isCriticalFailure (checks : List CheckResult) :
    checks.any isCriticalFailure = true ↔
      ∃ c ∈ checks, c.severity = Severity.Critical ∧
        c.status = CheckStatus.Fail := by
  simp only [List.any_eq_true, isCriticalFailure_eq_true]

/-- With `u8`-valid scores (each at most 255), the points sum is bounded
by `255/100` of the weights sum. -/
lemma specPointsTotal_le (checks : List CheckResult)
    (h : ∀ c ∈ checks, ∀ s, c.score_component = some s → s ≤ 255) :
    specPointsTotal checks ≤ (255 / 100 : ℚ) * (specWeightsTotal checks : ℚ) := by
  induction checks with
  | nil => simp [specPointsTotal, specWeightsTotal]
  | cons c rest ih =>
      have hrest := ih fun c' hc' s hs => h c' (List.mem_cons_of_mem _ hc') s hs
      rw [specPointsTotal_cons, specWeightsTotal_cons]
      cases hs : c.score_component with
      | none =>
          push_cast
          linarith
      | some s =>
          have hsle : (s : ℚ) ≤ 255 := by
            exact_mod_cast h c (List.mem_cons_self _ _) s hs
          have hw : (0 : ℚ) ≤ (c.weight : ℚ) := by positivity
          have hstep : (c.weight : ℚ) * ((s : ℚ) / 100) ≤
              (255 / 100 : ℚ) * (c.weight : ℚ) := by nlinarith
          push_cast
          linarith

/-- The saturating `as u8` cast is the identity on the rounded value when
the rounded value is known not to exceed 255. -/
lemma roundToU8_eq_toNat (q : ℚ) (hq : q ≤ 255) :
    roundToU8 q = (ratRound q).toNat := by
  have hfl : ratRound q ≤ 255 := by
    have h1 : (q + 1/2 : ℚ) ≤ 255 + 1/2 := by linarith
    calc ⌊(q + 1/2 : ℚ)⌋ ≤ ⌊(255 + 1/2 : ℚ)⌋ := Int.floor_le_floor h1
    _ = 255 := by norm_num
  have : (ratRound q).toNat ≤ 255 := Int.toNat_le.mpr hfl
  simp [roundToU8, u8cast, min_eq_left this]

/-- `score_component` is present iff the status is decided: the invariant
each check function maintains. -/
def scoreIffKnown (r : CheckResult) : Prop :=
  r.score_component.isSome = true ↔ r.status ≠ CheckStatus.Unknown

lemma scoreIffKnown_mint (facts : TokenFacts) :
    scoreIffKnown (check_mint_authority_disabled facts) := by
  unfold scoreIffKnown check_mint_authority_disabled
  cases facts.authorities with
  | none => simp
  | some a => by_cases h : a.mint_authority.isNone <;> simp [h]

lemma scoreIffKnown_freeze (facts : TokenFacts) :
    scoreIffKnown (check_freeze_authority_disabled facts) := by
  unfold scoreIffKnown check_freeze_authority_disabled
  cases facts.authorities with
  | none => simp
  | some a => by_cases h : a.freeze_authority.isNone <;> simp [h]

lemma scoreIffKnown_ownership (facts : TokenFacts) :
    scoreIffKnown (check_ownership_renounced facts) := by
  unfold scoreIffKnown check_ownership_renounced
  cases facts.authorities with
  | none => simp
  | some a => by_cases h : a.owner.isNone <;> simp [h]

lemma scoreIffKnown_holder (facts : TokenFacts) :
    scoreIffKnown (check_holder_concentration facts) := by
  unfold scoreIffKnown check_holder_concentration
  cases facts.holders with
  | none => simp [holderUnknownResult]
  | some h =>
      cases h1 : h.top1_pct with
      | none => simp [h1, holderUnknownResult]
      | some t1 =>
          cases h5 : h.top5_pct with
          | none => simp [h1, h5, holderUnknownResult]
          | some t5 =>
              simp only [h1, h5]
              split <;> simp

lemma scoreIffKnown_age (facts : TokenFacts) :
    scoreIffKnown (check_token_age facts) := by
  unfold scoreIffKnown check_token_age
  cases facts.creation with
  | none => simp [tokenAgeUnknownResult]
  | some c => cases hb : c.age_band <;> simp [hb, tokenAgeUnknownResult]

lemma scoreIffKnown_standard (facts : TokenFacts) (chain : String) :
    scoreIffKnown (check_standard_sanity facts chain) := by
  unfold scoreIffKnown check_standard_sanity
  cases hm : facts.metadata with
  | none => simp [hm, standardUnknownResult]
  | some m =>
      simp only [hm]
      split_ifs <;> simp

/-! ## Concrete inputs used by witnesses and counterexamples -/

/-- A critically failing check, as the mint-authority check produces when
a mint authority exists. -/
def exCritFailCheck : CheckResult :=
  { id := "mint_authority_disabled", label := "Mint authority disabled",
    category := "supply_control", status := CheckStatus.Fail,
    severity := Severity.Critical, value := Json.bool false,
    evidence := Json.null, weight := 25, score_component := some 0 }

/-- A passing check with weight 50 and sub-score 80. -/
def exPassCheck : CheckResult :=
  { id := "check1", label := "check1", category := "test",
    status := CheckStatus.Pass, severity := Severity.Medium,
    value := Json.null, evidence := Json.null,
    weight := 50, score_component := some 80 }

/-- An `Unknown` check with no score component. -/
def exUnknownCheck : CheckResult :=
  { id := "check2", label := "check2", category := "test",
    status := CheckStatus.Unknown, severity := Severity.High,
    value := Json.null, evidence := Json.null,
    weight := 20, score_component := none }

/-- A scored check with the (valid `u8`) weight 200. -/
def exHeavyCheckA : CheckResult :=
  { id := "heavy_a", label := "heavy_a", category := "test",
    status := CheckStatus.Pass, severity := Severity.Low,
    value := Json.null, evidence := Json.null,
    weight := 200, score_component := some 100 }

/-- A second scored check with weight 200. -/
def exHeavyCheckB : CheckResult :=
  { id := "heavy_b", label := "heavy_b", category := "test",
    status := CheckStatus.Pass, severity := Severity.Low,
    value := Json.null, evidence := Json.null,
    weight := 200, score_component := some 100 }

/-! ## Claims about the aggregator -/

/-- Claim C1: for every list of `CheckResult`s, if any check in the list
has severity `Critical` and status `Fail`, then the grade in the
`ScoreResult` returned by `aggregate_score` is `Compromised`, whatever
the numeric `fairness_score` is. -/
theorem c1_critical_override (checks : List CheckResult) (r : ScoreResult)
    (hcrit : ∃ c ∈ checks, c.severity = Severity.Critical ∧
      c.status = CheckStatus.Fail)
    (hr : aggregate_score checks = some r) :
    r.grade = Grade.Compromised := by
  rw [aggregate_score_eq] at hr
  rcases le_or_lt (specWeightsTotal checks) 255 with h255 | h255
  · rw [if_pos h255] at hr
    have hany : checks.any isCriticalFailure = true :=
      (any_isCriticalFailure checks).mpr hcrit
    cases hr
    simp [hany]
  · rw [if_neg (by omega)] at hr
    exact absurd hr (by simp)

theorem c1_critical_override_witness :
    (aggregate_score [exCritFailCheck]).map (fun r => r.grade) =
      some Grade.Compromised := by
  have h255 : specWeightsTotal [exCritFailCheck] ≤ 255 := by
    simp [specWeightsTotal, exCritFailCheck]
  have hr := aggregate_score_eq [exCritFailCheck]
  rw [if_pos h255] at hr
  rw [hr, Option.map_some']
  exact congrArg some (c1_critical_override [exCritFailCheck] _
    ⟨exCritFailCheck, by simp, rfl, rfl⟩ hr)

/-- Claim C2: with no critical failure (and `u8`-valid scores), the
returned `fairness_score` is `round(points_total / weights_total × 100)`
when `weights_total > 0` and absent when `weights_total = 0`, and the
grade is threshold-derived from it (≥80 `Strong`, ≥60 `Mixed`, ≥40
`Fragile`, else `Compromised`), an absent score grading `Compromised`. -/
theorem c2_fairness_formula (checks : List CheckResult) (r : ScoreResult)
    (hr : aggregate_score checks = some r)
    (hnc : ¬ ∃ c ∈ checks, c.severity = Severity.Critical ∧
      c.status = CheckStatus.Fail)
    (hu8 : ∀ c ∈ checks, ∀ s, c.score_component = some s → s ≤ 255) :
    (specWeightsTotal checks = 0 →
      r.fairness_score = none ∧ r.grade = Grade.Compromised) ∧
    (0 < specWeightsTotal checks →
      r.fairness_score = some (ratRound
        ((specPointsTotal checks / (specWeightsTotal checks : ℚ)) * 100)).toNat ∧
      r.grade =
        (if 80 ≤ (ratRound ((specPointsTotal checks /
              (specWeightsTotal checks : ℚ)) * 100)).toNat then Grade.Strong
         else if 60 ≤ (ratRound ((specPointsTotal checks /
              (specWeightsTotal checks : ℚ)) * 100)).toNat then Grade.Mixed
         else if 40 ≤ (ratRound ((specPointsTotal checks /
              (specWeightsTotal checks : ℚ)) * 100)).toNat then Grade.Fragile
         else Grade.Compromised)) := by
  rw [aggregate_score_eq] at hr
  rcases le_or_lt (specWeightsTotal checks) 255 with h255 | h255
  case inr => rw [if_neg (by omega)] at hr; exact absurd hr (by simp)
  rw [if_pos h255] at hr
  have hany : checks.any isCriticalFailure = false := by
    have h := fun h => hnc ((any_isCriticalFailure checks).mp h)
    simpa using h
  cases hr
  constructor
  · intro h0
    constructor
    · simp [h0]
    · simp [hany, h0]
  · intro h0
    have h0' : specWeightsTotal checks ≠ 0 := by omega
    have hq : (specPointsTotal checks / (specWeightsTotal checks : ℚ)) * 100
        ≤ 255 := by
      have hP := specPointsTotal_le checks hu8
      have hW : (0 : ℚ) < (specWeightsTotal checks : ℚ) := by exact_mod_cast h0
      rw [div_mul_eq_mul_div, div_le_iff₀ hW]
      nlinarith
    constructor
    · simp [h0', roundToU8_eq_toNat _ hq]
    · simp [hany, h0', roundToU8_eq_toNat _ hq, grade_from_score]

theorem c2_fairness_formula_witness :
    (aggregate_score [exPassCheck]).map (fun r => r.fairness_score) =
      some (some 80) ∧
    (aggregate_score [exPassCheck]).map (fun r => r.grade) =
      some Grade.Strong := by
  have h255 : specWeightsTotal [exPassCheck] ≤ 255 := by
    simp [specWeightsTotal, exPassCheck]
  have hr := aggregate_score_eq [exPassCheck]
  rw [if_pos h255] at hr
  have hmain := c2_fairness_formula [exPassCheck] _ hr
    (by rintro ⟨c, hc, hsev, hst⟩
        simp only [List.mem_singleton] at hc
        subst hc
        simp [exPassCheck] at hst)
    (by intro c hc s hs
        simp only [List.mem_singleton] at hc
        subst hc
        simp [exPassCheck] at hs
        omega)
  have hWpos : 0 < specWeightsTotal [exPassCheck] := by
    simp [specWeightsTotal, exPassCheck]
  obtain ⟨hfair, hgrade⟩ := hmain.2 hWpos
  have hval : (ratRound ((specPointsTotal [exPassCheck] /
      (specWeightsTotal [exPassCheck] : ℚ)) * 100)).toNat = 80 := by
    norm_num [specPointsTotal, specWeightsTotal, exPassCheck, ratRound]
    decide
  rw [hval] at hfair hgrade
  rw [hr, Option.map_some', Option.map_some']
  refine ⟨by rw [hfair], ?_⟩
  rw [hgrade]
  norm_num

/-- Claim C3: every check function's result carries a `score_component`
iff its status is decided (`≠ Unknown`), and in `aggregate_score` a check
with an absent `score_component` contributes neither to `weights_total`
nor to the numeric score. -/
theorem c3_score_iff_known_and_excluded :
    (∀ (facts : TokenFacts) (chain : String),
      scoreIffKnown (check_mint_authority_disabled facts) ∧
      scoreIffKnown (check_freeze_authority_disabled facts) ∧
      scoreIffKnown (check_ownership_renounced facts) ∧
      scoreIffKnown (check_holder_concentration facts) ∧
      scoreIffKnown (check_token_age facts) ∧
      scoreIffKnown (check_standard_sanity facts chain)) ∧
    (∀ (cs₁ cs₂ : List CheckResult) (c : CheckResult),
      c.score_component = none →
      (aggregate_score (cs₁ ++ c :: cs₂)).map (fun r => r.weights_total) =
        (aggregate_score (cs₁ ++ cs₂)).map (fun r => r.weights_total) ∧
      (aggregate_score (cs₁ ++ c :: cs₂)).map (fun r => r.fairness_score) =
        (aggregate_score (cs₁ ++ cs₂)).map (fun r => r.fairness_score)) := by
  constructor
  · intro facts chain
    exact ⟨scoreIffKnown_mint facts, scoreIffKnown_freeze facts,
      scoreIffKnown_ownership facts, scoreIffKnown_holder facts,
      scoreIffKnown_age facts, scoreIffKnown_standard facts chain⟩
  · intro cs₁ cs₂ c hc
    have hW : specWeightsTotal (cs₁ ++ c :: cs₂) =
        specWeightsTotal (cs₁ ++ cs₂) := by
      simp [specWeightsTotal, hc]
    have hP : specPointsTotal (cs₁ ++ c :: cs₂) =
        specPointsTotal (cs₁ ++ cs₂) := by
      simp [specPointsTotal, hc]
    rw [aggregate_score_eq, aggregate_score_eq, hW, hP]
    constructor <;>
    · split
      · simp
      · rfl

theorem c3_score_iff_known_and_excluded_witness :
    (scoreIffKnown (check_mint_authority_disabled
        ⟨none, none, none, none, none⟩) ∧
      scoreIffKnown (check_freeze_authority_disabled
        ⟨none, none, none, none, none⟩) ∧
      scoreIffKnown (check_ownership_renounced
        ⟨none, none, none, none, none⟩) ∧
      scoreIffKnown (check_holder_concentration
        ⟨none, none, none, none, none⟩) ∧
      scoreIffKnown (check_token_age ⟨none, none, none, none, none⟩) ∧
      scoreIffKnown (check_standard_sanity
        ⟨none, none, none, none, none⟩ "solana")) ∧
    ((aggregate_score ([exPassCheck] ++ exUnknownCheck :: [])).map
        (fun r => r.weights_total) =
      (aggregate_score ([exPassCheck] ++ [])).map (fun r => r.weights_total) ∧
     (aggregate_score ([exPassCheck] ++ exUnknownCheck :: [])).map
        (fun r => r.fairness_score) =
      (aggregate_score ([exPassCheck] ++ [])).map (fun r => r.fairness_score)) :=
  ⟨c3_score_iff_known_and_excluded.1 ⟨none, none, none, none, none⟩ "solana",
   c3_score_iff_known_and_excluded.2 [exPassCheck] [] exUnknownCheck rfl⟩

/-- Claim C10 counterexample: two checks with the valid `u8` weight 200
each drive the `u8` accumulation `weights_total += check.weight` past
255, so `aggregate_score` faults instead of returning a `ScoreResult`. -/
theorem c10_overflow_counterexample :
    aggregate_score [exHeavyCheckA, exHeavyCheckB] = none := by
  rw [aggregate_score_eq,
    if_neg (by simp [specWeightsTotal, exHeavyCheckA, exHeavyCheckB])]

/-- Claim C10 (amended): `aggregate_score` terminates normally with a
`ScoreResult` on every list of checks whose scored weights sum to at most
255 (the `u8` range); within that range the weight accumulation never
faults.  (Beyond it the `u8` accumulation does fault, see the
counterexample.) -/
theorem c10_aggregate_total (checks : List CheckResult)
    (h255 : specWeightsTotal checks ≤ 255) :
    ∃ r : ScoreResult, aggregate_score checks = some r := by
  rw [aggregate_score_eq, if_pos h255]
  exact ⟨_, rfl⟩

theorem c10_aggregate_total_witness :
    ∃ r : ScoreResult, aggregate_score [exHeavyCheckA] = some r :=
  c10_aggregate_total [exHeavyCheckA]
    (by simp [specWeightsTotal, exHeavyCheckA])

/-! ## Claims about individual checks -/

/-- Authorities with no owner address. -/
def exAuthNoOwner : AuthorityInfo := ⟨none, none, none, none⟩

/-- Facts with the authorities sub-record present and no owner. -/
def exFactsAuth : TokenFacts := ⟨none, none, some exAuthNoOwner, none, none⟩

/-- Claim C4 counterexample: with the authorities sub-record absent the
ownership check's severity is `High`, not `Critical` as the claim states
for every case. -/
theorem c4_ownership_severity_counterexample :
    (check_ownership_renounced ⟨none, none, none, none, none⟩).severity ≠
      Severity.Critical := by
  simp [check_ownership_renounced]

/-- Claim C4 (amended): the ownership check has weight 20 in every case;
when the authorities sub-record is present its severity is `Critical`
and its status is `Pass` iff no owner address is present; when the
sub-record is absent the result is `Unknown` with severity `High`. -/
theorem c4_ownership_renounced (facts : TokenFacts) :
    (check_ownership_renounced facts).weight = 20 ∧
    (facts.authorities = none →
      (check_ownership_renounced facts).status = CheckStatus.Unknown ∧
      (check_ownership_renounced facts).severity = Severity.High) ∧
    (∀ auth, facts.authorities = some auth →
      (check_ownership_renounced facts).severity = Severity.Critical ∧
      ((check_ownership_renounced facts).status = CheckStatus.Pass ↔
        auth.owner = none)) := by
  cases ha : facts.authorities with
  | none => simp [check_ownership_renounced, ha]
  | some a =>
      refine ⟨?_, ?_, ?_⟩
      · by_cases h : a.owner.isNone <;>
          simp [check_ownership_renounced, ha, h]
      · intro h
        cases h
      · intro auth hauth
        cases hauth
        by_cases h : a.owner.isNone
        · simp [check_ownership_renounced, ha, h]
          simpa [Option.isNone_iff_eq_none] using h
        · simp [check_ownership_renounced, ha, h]
          simpa [Option.isNone_iff_eq_none] using h

theorem c4_ownership_renounced_witness :
    (check_ownership_renounced exFactsAuth).weight = 20 ∧
    ((check_ownership_renounced exFactsAuth).severity = Severity.Critical ∧
      ((check_ownership_renounced exFactsAuth).status = CheckStatus.Pass ↔
        exAuthNoOwner.owner = none)) :=
  ⟨(c4_ownership_renounced exFactsAuth).1,
   (c4_ownership_renounced exFactsAuth).2.2 exAuthNoOwner rfl⟩

/-- Metadata declaring a recognized ERC-20 standard with known decimals. -/
def exErc20Metadata : Metadata :=
  ⟨some "Test", some "TEST", some 18, TokenStandard.Erc20⟩

/-- Facts carrying `exErc20Metadata`. -/
def exErc20Facts : TokenFacts :=
  ⟨some exErc20Metadata, none, none, none, none⟩

/-- Facts whose metadata declares an `Unknown` standard. -/
def exUnknownStdFacts : TokenFacts :=
  ⟨some ⟨some "Test", some "TEST", none, TokenStandard.Unknown⟩,
   none, none, none, none⟩

/-- Claim C5 counterexample: `run_checks` dispatches chain `"ethereum"`
to `check_standard_sanity`, but the check's chain match covers only
`"solana"`, `"base"` and `"evm"`: on `"ethereum"` a recognized ERC-20
standard with known decimals still fails, and an `Unknown` declared
standard gets severity `Medium`, not `High`. -/
theorem c5_standard_sanity_counterexample :
    (check_standard_sanity exErc20Facts "ethereum").status =
      CheckStatus.Fail ∧
    (check_standard_sanity exUnknownStdFacts "ethereum").severity =
      Severity.Medium := by
  constructor <;>
    simp [check_standard_sanity, exErc20Facts, exErc20Metadata,
      exUnknownStdFacts]

/-- Claim C5 (amended): with metadata present, on `"solana"` the check
passes iff the declared standard is a recognized SPL variant; on the
chains `"base"` and `"evm"` it passes iff the standard is ERC-20 and
decimals is known; on every other chain string — including
`"ethereum"`, which `run_checks` does dispatch to this check — status is
`Fail` with severity `Medium` regardless of the standard; an `Unknown`
declared standard yields severity `High` only on `"solana"`, `"base"`
and `"evm"`.  `run_checks` on `"base"`, `"evm"` and `"ethereum"` runs
this check. -/
theorem c5_standard_sanity (facts : TokenFacts) (m : Metadata)
    (hm : facts.metadata = some m) :
    (((check_standard_sanity facts "solana").status = CheckStatus.Pass ↔
        (m.standard = TokenStandard.SplToken ∨
          m.standard = TokenStandard.SplToken2022)) ∧
      (check_standard_sanity facts "solana").severity =
        (if m.standard = TokenStandard.Unknown then Severity.High
         else Severity.Medium)) ∧
    (∀ chain, (chain = "base" ∨ chain = "evm") →
      (((check_standard_sanity facts chain).status = CheckStatus.Pass ↔
          (m.standard = TokenStandard.Erc20 ∧ m.decimals.isSome = true)) ∧
        (check_standard_sanity facts chain).severity =
          (if m.standard = TokenStandard.Unknown then Severity.High
           else Severity.Medium))) ∧
    (∀ chain, chain ≠ "solana" → chain ≠ "base" → chain ≠ "evm" →
      (check_standard_sanity facts chain).status = CheckStatus.Fail ∧
      (check_standard_sanity facts chain).severity = Severity.Medium) ∧
    (∀ chain, (chain = "base" ∨ chain = "evm" ∨ chain = "ethereum") →
      check_standard_sanity facts chain ∈ run_checks facts chain) := by
  refine ⟨?_, ?_, ?_, ?_⟩
  · cases hs : m.standard <;>
      simp [check_standard_sanity, hm, check_solana_standard, hs]
  · rintro chain (rfl | rfl) <;>
    · cases hs : m.standard <;>
        cases hd : m.decimals <;>
          simp [check_standard_sanity, hm, check_evm_standard, hs, hd]
  · intro chain h1 h2 h3
    constructor <;> simp [check_standard_sanity, hm, h1, h2, h3]
  · rintro chain (rfl | rfl | rfl) <;> simp [run_checks]

theorem c5_standard_sanity_witness :
    ((check_standard_sanity exErc20Facts "evm").status = CheckStatus.Pass ↔
      (exErc20Metadata.standard = TokenStandard.Erc20 ∧
        exErc20Metadata.decimals.isSome = true)) ∧
    check_standard_sanity exErc20Facts "ethereum" ∈
      run_checks exErc20Facts "ethereum" :=
  ⟨((c5_standard_sanity exErc20Facts exErc20Metadata rfl).2.1 "evm"
      (Or.inr rfl)).1,
   (c5_standard_sanity exErc20Facts exErc20Metadata rfl).2.2.2 "ethereum"
      (Or.inr (Or.inr rfl))⟩

/-! ## Holder-concentration curves (spec §4.2, stated from its words) -/

/-- The spec's top-1 concentration curve: 100 for ≤10%, interpolated
100→60 over (10,20], 60→25 over (20,40], 25→0 over (40,70], 0 above 70%. -/
def specTop1Curve (p : ℚ) : ℚ :=
  if p ≤ 10 then 100
  else if p ≤ 20 then 100 + (p - 10) * (60 - 100) / (20 - 10)
  else if p ≤ 40 then 60 + (p - 20) * (25 - 60) / (40 - 20)
  else if p ≤ 70 then 25 + (p - 40) * (0 - 25) / (70 - 40)
  else 0

/-- The spec's top-5 concentration curve: 100 for ≤30%, interpolated
100→60 over (30,50], 60→25 over (50,70], 25→0 over (70,90], 0 above 90%. -/
def specTop5Curve (p : ℚ) : ℚ :=
  if p ≤ 30 then 100
  else if p ≤ 50 then 100 + (p - 30) * (60 - 100) / (50 - 30)
  else if p ≤ 70 then 60 + (p - 50) * (25 - 60) / (70 - 50)
  else if p ≤ 90 then 25 + (p - 70) * (0 - 25) / (90 - 70)
  else 0

lemma score_top1_eq_spec (p : ℚ) : score_top1 p = specTop1Curve p := by
  unfold score_top1 specTop1Curve lerp
  split_ifs <;> first
    | rfl
    | linarith
    | (ring_nf; linarith)

lemma score_top5_eq_spec (p : ℚ) : score_top5 p = specTop5Curve p := by
  unfold score_top5 specTop5Curve lerp
  split_ifs <;> first
    | rfl
    | linarith
    | (ring_nf; linarith)

lemma specTop1Curve_bounds (p : ℚ) :
    0 ≤ specTop1Curve p ∧ specTop1Curve p ≤ 100 := by
  unfold specTop1Curve
  split_ifs <;> constructor <;> linarith

lemma specTop5Curve_bounds (p : ℚ) :
    0 ≤ specTop5Curve p ∧ specTop5Curve p ≤ 100 := by
  unfold specTop5Curve
  split_ifs <;> constructor <;> linarith

lemma specTop1Curve_antitone {p q : ℚ} (h : p ≤ q) :
    specTop1Curve q ≤ specTop1Curve p := by
  unfold specTop1Curve
  split_ifs <;> linarith

lemma specTop5Curve_antitone {p q : ℚ} (h : p ≤ q) :
    specTop5Curve q ≤ specTop5Curve p := by
  unfold specTop5Curve
  split_ifs <;> linarith

lemma roundToU8_le_100 (q : ℚ) (h : q ≤ 100) : roundToU8 q ≤ 100 := by
  have hfl : ratRound q ≤ 100 := by
    have h1 : (q + 1/2 : ℚ) ≤ 100 + 1/2 := by linarith
    calc ⌊(q + 1/2 : ℚ)⌋ ≤ ⌊(100 + 1/2 : ℚ)⌋ := Int.floor_le_floor h1
    _ = 100 := by norm_num
  calc roundToU8 q ≤ (ratRound q).toNat := min_le_left _ _
  _ ≤ 100 := Int.toNat_le.mpr hfl

/-- Holder data with `top1_pct = 8.5`, `top5_pct = 28`. -/
def exHolderInfo : HolderInfo := ⟨some (17/2), some 28, []⟩

/-- Facts carrying `exHolderInfo`. -/
def exHolderFacts : TokenFacts := ⟨none, none, none, some exHolderInfo, none⟩

/-- Claim C6: with both percentages present, the holder-concentration
check's sub-scores follow the spec's piecewise-linear curves, the
combined `score_component` is the rounded mean of the two curve values,
status is `Pass` iff the combined score is at least 50, and severity is
`Low` at ≥80, `Medium` at ≥50, else `High`. -/
theorem c6_holder_concentration (facts : TokenFacts) (h : HolderInfo)
    (t1 t5 : ℚ) (hh : facts.holders = some h)
    (h1 : h.top1_pct = some t1) (h5 : h.top5_pct = some t5) :
    (∀ p : ℚ, score_top1 p = specTop1Curve p) ∧
    (∀ p : ℚ, score_top5 p = specTop5Curve p) ∧
    (check_holder_concentration facts).score_component =
      some (roundToU8 ((specTop1Curve t1 + specTop5Curve t5) / 2)) ∧
    ((check_holder_concentration facts).status = CheckStatus.Pass ↔
      50 ≤ roundToU8 ((specTop1Curve t1 + specTop5Curve t5) / 2)) ∧
    (check_holder_concentration facts).severity =
      (if 80 ≤ roundToU8 ((specTop1Curve t1 + specTop5Curve t5) / 2) then
        Severity.Low
       else if 50 ≤ roundToU8 ((specTop1Curve t1 + specTop5Curve t5) / 2) then
        Severity.Medium
       else Severity.High) := by
  refine ⟨score_top1_eq_spec, score_top5_eq_spec, ?_, ?_, ?_⟩
  · simp [check_holder_concentration, hh, h1, h5, score_top1_eq_spec t1,
      score_top5_eq_spec t5]
  · simp only [check_holder_concentration, hh, h1, h5,
      score_top1_eq_spec t1, score_top5_eq_spec t5]
    split_ifs with hc <;> simp [hc]
  · simp [check_holder_concentration, hh, h1, h5, score_top1_eq_spec t1,
      score_top5_eq_spec t5]

theorem c6_holder_concentration_witness :
    (check_holder_concentration exHolderFacts).score_component =
      some 100 := by
  have h := (c6_holder_concentration exHolderFacts exHolderInfo (17/2) 28
    rfl rfl rfl).2.2.1
  rw [h]
  norm_num [specTop1Curve, specTop5Curve, roundToU8, ratRound, u8cast]
  decide

/-- Claim C7: the holder-concentration sub-scores are monotonically
non-increasing in their percentage arguments, both sub-scores lie in
[0, 100], and so does the rounded combined score. -/
theorem c7_monotone_bounded :
    (∀ p q : ℚ, p ≤ q →
      score_top1 q ≤ score_top1 p ∧ score_top5 q ≤ score_top5 p) ∧
    (∀ p : ℚ, 0 ≤ score_top1 p ∧ score_top1 p ≤ 100 ∧
      0 ≤ score_top5 p ∧ score_top5 p ≤ 100) ∧
    (∀ t1 t5 : ℚ, roundToU8 ((score_top1 t1 + score_top5 t5) / 2) ≤ 100) := by
  refine ⟨?_, ?_, ?_⟩
  · intro p q hpq
    rw [score_top1_eq_spec, score_top1_eq_spec, score_top5_eq_spec,
      score_top5_eq_spec]
    exact ⟨specTop1Curve_antitone hpq, specTop5Curve_antitone hpq⟩
  · intro p
    rw [score_top1_eq_spec, score_top5_eq_spec]
    exact ⟨(specTop1Curve_bounds p).1, (specTop1Curve_bounds p).2,
      (specTop5Curve_bounds p).1, (specTop5Curve_bounds p).2⟩
  · intro t1 t5
    rw [score_top1_eq_spec, score_top5_eq_spec]
    refine roundToU8_le_100 _ ?_
    have b1 := specTop1Curve_bounds t1
    have b5 := specTop5Curve_bounds t5
    linarith

theorem c7_monotone_bounded_witness :
    (score_top1 10 ≤ score_top1 5 ∧ score_top5 10 ≤ score_top5 5) ∧
    (0 ≤ score_top1 33 ∧ score_top1 33 ≤ 100 ∧
      0 ≤ score_top5 33 ∧ score_top5 33 ≤ 100) ∧
    roundToU8 ((score_top1 33 + score_top5 33) / 2) ≤ 100 :=
  ⟨c7_monotone_bounded.1 5 10 (by norm_num),
   c7_monotone_bounded.2.1 33,
   c7_monotone_bounded.2.2 33 33⟩

/-! ## Analysis pipeline claims -/

lemma weight_mint (facts : TokenFacts) :
    (check_mint_authority_disabled facts).weight = 25 := by
  unfold check_mint_authority_disabled
  cases ha : facts.authorities <;> simp [ha]

lemma weight_freeze (facts : TokenFacts) :
    (check_freeze_authority_disabled facts).weight = 20 := by
  unfold check_freeze_authority_disabled
  cases ha : facts.authorities <;> simp [ha]

lemma weight_ownership (facts : TokenFacts) :
    (check_ownership_renounced facts).weight = 20 := by
  unfold check_ownership_renounced
  cases ha : facts.authorities <;> simp [ha]

lemma weight_holder (facts : TokenFacts) :
    (check_holder_concentration facts).weight = 20 := by
  unfold check_holder_concentration
  cases hh : facts.holders with
  | none => simp [holderUnknownResult]
  | some h =>
      cases h1 : h.top1_pct <;> cases h5 : h.top5_pct <;>
        simp [h1, h5, holderUnknownResult]

lemma weight_age (facts : TokenFacts) :
    (check_token_age facts).weight = 10 := by
  unfold check_token_age
  cases hc : facts.creation with
  | none => simp [tokenAgeUnknownResult]
  | some c => cases hb : c.age_band <;> simp [hb, tokenAgeUnknownResult]

lemma weight_standard (facts : TokenFacts) (chain : String) :
    (check_standard_sanity facts chain).weight = 10 := by
  unfold check_standard_sanity
  cases hm : facts.metadata <;> simp [hm, standardUnknownResult]

lemma specTerm_le (c : CheckResult) :
    (match c.score_component with | some _ => c.weight | none => 0) ≤
      c.weight := by
  cases c.score_component <;> simp

/-- Every check set `run_checks` builds has scored weights summing well
inside `u8` range (at most 85). -/
lemma specWeightsTotal_run_checks_le (facts : TokenFacts) (chain : String) :
    specWeightsTotal (run_checks facts chain) ≤ 255 := by
  have h1 := specTerm_le (check_mint_authority_disabled facts)
  have h2 := specTerm_le (check_freeze_authority_disabled facts)
  have h3 := specTerm_le (check_ownership_renounced facts)
  have h4 := specTerm_le (check_holder_concentration facts)
  have h5 := specTerm_le (check_token_age facts)
  have h6 := specTerm_le (check_standard_sanity facts chain)
  simp only [weight_mint, weight_freeze, weight_ownership, weight_holder,
    weight_age, weight_standard] at h1 h2 h3 h4 h5 h6
  unfold run_checks
  split_ifs <;>
    · simp only [specWeightsTotal, List.map_cons, List.map_nil,
        List.sum_cons, List.sum_nil, weight_mint, weight_freeze,
        weight_ownership, weight_holder, weight_age, weight_standard]
      omega

/-- `analyze` always returns a response: the repo's own check sets never
overflow the aggregator's `u8` weight accumulator. -/
lemma analyze_total (request : AnalyzeRequest) (provider : ProviderOutcomes)
    (analysis_id requested_at : String) :
    ∃ resp, analyze request provider analysis_id requested_at = some resp := by
  have h := aggregate_score_eq
    (run_checks (gather_facts provider request.options).1 request.chain)
  rw [if_pos (specWeightsTotal_run_checks_le _ _)] at h
  exact ⟨_, by simp only [analyze]; rw [h]; rfl⟩

lemma gather_facts_metadata (provider : ProviderOutcomes)
    (options : AnalyzeOptions) :
    ((gather_facts provider options).1.metadata.isSome = true) ↔
      ∃ m, provider.metadata = Except.ok m := by
  unfold gather_facts
  cases hm : provider.metadata <;> simp [hm]

lemma gather_facts_authorities (provider : ProviderOutcomes)
    (options : AnalyzeOptions) :
    ((gather_facts provider options).1.authorities.isSome = true) ↔
      ∃ a, provider.authorities = Except.ok a := by
  unfold gather_facts
  cases ha : provider.authorities <;> simp [ha]

/-- Claim C8: a response's status is `Ok` iff its accumulated fetch-error
list is empty; `Partial` iff that list is non-empty and the metadata or
the authorities fetch succeeded; and `Error` otherwise. -/
theorem c8_analysis_status (request : AnalyzeRequest)
    (provider : ProviderOutcomes) (analysis_id requested_at : String)
    (resp : AnalyzeResponse)
    (hr : analyze request provider analysis_id requested_at = some resp) :
    (resp.status = AnalysisStatus.Ok ↔ resp.errors = []) ∧
    (resp.status = AnalysisStatus.Partial ↔
      (resp.errors ≠ [] ∧ ((∃ m, provider.metadata = Except.ok m) ∨
        (∃ a, provider.authorities = Except.ok a)))) ∧
    (resp.status = AnalysisStatus.Error ↔
      (resp.errors ≠ [] ∧ ¬((∃ m, provider.metadata = Except.ok m) ∨
        (∃ a, provider.authorities = Except.ok a)))) := by
  simp only [analyze] at hr
  rw [Option.map_eq_some'] at hr
  obtain ⟨score, hsc, hresp⟩ := hr
  subst hresp
  rw [← gather_facts_metadata provider request.options,
    ← gather_facts_authorities provider request.options]
  by_cases he : (gather_facts provider request.options).2 = []
  · simp [he]
  · by_cases hma : ((gather_facts provider request.options).1.metadata.isSome
        || (gather_facts provider request.options).1.authorities.isSome) = true
    · have h' : (gather_facts provider request.options).1.metadata.isSome =
          true ∨
          (gather_facts provider request.options).1.authorities.isSome =
          true := by simpa using hma
      rcases h' with h | h <;> simp [he, hma, h]
    · have hma2 : ((gather_facts provider request.options).1.metadata.isSome
          || (gather_facts provider request.options).1.authorities.isSome) =
          false := by simpa using hma
      have hm : (gather_facts provider request.options).1.metadata.isSome =
          false := by
        have := hma2
        simp only [Bool.or_eq_false_iff] at this
        exact this.1
      have ha2 :
          (gather_facts provider request.options).1.authorities.isSome =
          false := by
        have := hma2
        simp only [Bool.or_eq_false_iff] at this
        exact this.2
      simp [he, hm, ha2]

/-- A provider whose five fetches all fail. -/
def exErrProvider : ProviderOutcomes :=
  ⟨Except.error ProviderError.Timeout, Except.error ProviderError.Timeout,
   Except.error ProviderError.NotFound, Except.error ProviderError.Timeout,
   Except.error ProviderError.InvalidResponse⟩

/-- A default-options request for chain `solana`. -/
def exRequest : AnalyzeRequest := ⟨"solana", "test_address", ⟨true, 10, false⟩⟩

theorem c8_analysis_status_witness :
    (analyze exRequest exErrProvider "a1" "t1").map (fun r => r.status) =
      some AnalysisStatus.Error := by
  obtain ⟨resp, hr⟩ := analyze_total exRequest exErrProvider "a1" "t1"
  have hmain := c8_analysis_status exRequest exErrProvider "a1" "t1" resp hr
  have herr : resp.errors ≠ [] := by
    have hr' := hr
    simp only [analyze] at hr'
    rw [Option.map_eq_some'] at hr'
    obtain ⟨score, -, hresp⟩ := hr'
    subst hresp
    simp [gather_facts, exErrProvider, exRequest]
  have hnone : ¬((∃ m, exErrProvider.metadata = Except.ok m) ∨
      (∃ a, exErrProvider.authorities = Except.ok a)) := by
    rintro (⟨m, hm⟩ | ⟨a, ha⟩)
    · simp [exErrProvider] at hm
    · simp [exErrProvider] at ha
  rw [hr, Option.map_some']
  exact congrArg some (hmain.2.2.mpr ⟨herr, hnone⟩)

/-! ## Cache claims -/

lemma findEntry_set (cache : SimpleCache) (key : String)
    (response : AnalyzeResponse) (now ttl_seconds : Nat) :
    (cache.set key response now ttl_seconds).findEntry key =
      some { response := response, cached_at := now,
             ttl_seconds := ttl_seconds } := by
  simp [SimpleCache.findEntry, SimpleCache.set]

/-- Claim C9: `get(key)` returns the stored response (its freshness
marker rewritten to record cache provenance) exactly when an entry
exists for the key and `now - cached_at < ttl`, and is otherwise a miss;
and a `force_refresh` request never reads the cache — its result is the
fresh pipeline output whatever the cache holds — but still writes that
output, overwriting the entry under the request key. -/
theorem c9_cache_get_and_force_refresh :
    (∀ (cache : SimpleCache) (key : String) (now : Nat)
        (resp : AnalyzeResponse),
      cache.get key now = some resp ↔
        ∃ e, cache.findEntry key = some e ∧
          now - e.cached_at < e.ttl_seconds ∧
          resp = { e.response with
                   requested_at := "cached_" ++ toString e.cached_at }) ∧
    (∀ (request : AnalyzeRequest) (provider : ProviderOutcomes)
        (cache : SimpleCache) (analysis_id requested_at : String)
        (now : Nat),
      request.options.force_refresh = true →
      ((analyze_with_cache request provider cache analysis_id requested_at
          now).map Prod.fst =
        analyze request provider analysis_id requested_at ∧
       (∀ resp cache',
          analyze_with_cache request provider cache analysis_id
            requested_at now = some (resp, cache') →
          cache'.findEntry (cacheKey request) =
            some { response := resp, cached_at := now,
                   ttl_seconds := ttl_for_response resp }))) := by
  constructor
  · intro cache key now resp
    unfold SimpleCache.get
    cases hfe : cache.findEntry key with
    | none => simp [hfe]
    | some e =>
        simp only [hfe]
        split_ifs with hage
        · simp only [Option.some.injEq]
          constructor
          · intro h
            exact ⟨e, rfl, hage, h.symm⟩
          · rintro ⟨e', he', hage', hresp⟩
            cases he'
            exact hresp.symm
        · constructor
          · intro h
            exact h.elim
          · rintro ⟨e', he', hage', -⟩
            cases he'
            exact absurd hage' hage
  · intro request provider cache analysis_id requested_at now hforce
    constructor
    · simp only [analyze_with_cache, hforce, if_true]
      cases hra : analyze request provider analysis_id requested_at with
      | none => simp
      | some r => simp
    · intro resp cache' heq
      simp only [analyze_with_cache, hforce, if_true] at heq
      rw [Option.map_eq_some'] at heq
      obtain ⟨response, hresp, hpair⟩ := heq
      rw [Prod.mk.injEq] at hpair
      obtain ⟨rfl, rfl⟩ := hpair
      exact findEntry_set cache (cacheKey request) response now
        (ttl_for_response response)

/-- The repo's test fixture response (`make_test_response`). -/
def exResponse : AnalyzeResponse :=
  { schema_version := "1.0.0", analysis_id := "test123",
    requested_at := "2026-01-31T12:00:00Z", chain := "solana",
    address := "test_address", status := AnalysisStatus.Ok, token := none,
    checks := [],
    score := { model := "weighted_sum_v1", fairness_score := some 100,
               grade := Grade.Strong, components := [], weights_total := 100,
               notes := [] },
    explain := { summary := "Test", method := [],
                 interpretation := { what_to_do := [] } },
    errors := [] }

/-- A cache holding `exResponse` under key `"k"`, cached at 1000 with a
3600-second TTL. -/
def exCache : SimpleCache := ⟨[("k", ⟨exResponse, 1000, 3600⟩)]⟩

/-- `exRequest` with `force_refresh` set. -/
def exRefreshRequest : AnalyzeRequest :=
  ⟨"solana", "test_address", ⟨true, 10, true⟩⟩

theorem c9_cache_get_and_force_refresh_witness :
    SimpleCache.get exCache "k" 2000 =
      some { exResponse with requested_at := "cached_1000" } ∧
    (analyze_with_cache exRefreshRequest exErrProvider exCache "a2" "t2"
        5).map Prod.fst =
      analyze exRefreshRequest exErrProvider "a2" "t2" := by
  constructor
  · exact (c9_cache_get_and_force_refresh.1 exCache "k" 2000 _).mpr
      ⟨⟨exResponse, 1000, 3600⟩,
       by simp [SimpleCache.findEntry, exCache],
       by norm_num, by rfl⟩
  · exact (c9_cache_get_and_force_refresh.2 exRefreshRequest exErrProvider
      exCache "a2" "t2" 5 rfl).1

end LaunchVerifier
